import Mathlib

/-!
Verification development for the TrustGuard eBay content script
(src/content-ebay.js). The script is embedded shallowly: the DOM is a
record of the texts the script would read through its selectors, JS
numbers that can be null or NaN are an explicit inductive type, and the
one place the script can throw (reading the description iframe) is an
Except. The source file ends mid-expression inside
TrustGuardAPI.analyzeList; the two definitions covering the missing tail
(the classifier and the cache-freshness decision) are modelled from the
specification and say so in their doc comments.
-/

/-- Result of a JavaScript numeric extraction: null, NaN, or a number. -/
inductive JSNum where
  | null
  | nan
  | num (q : ℚ)
deriving DecidableEq

/-- Error that a DOM read can throw; reading the document of a
cross-origin iframe raises a SecurityError in the browser. -/
inductive JsError where
  | securityError
deriving DecidableEq

/-- Whitespace for the model of String.prototype.trim. -/
def isWs (c : Char) : Bool :=
  c == ' ' || c == '\t' || c == '\n' || c == '\r' || c == '\x0b' || c == '\x0c'

/-- Model of text.trim(): strip whitespace from both ends. -/
def jsTrim (s : List Char) : List Char :=
  ((s.dropWhile isWs).reverse.dropWhile isWs).reverse

/-- Model of text.toLowerCase() on the ASCII range. -/
def jsToLower (s : List Char) : List Char := s.map Char.toLower

/-- Boolean test that pat occurs at the head of s. -/
def isPrefixChars : List Char → List Char → Bool
  | [], _ => true
  | _ :: _, [] => false
  | a :: as, b :: bs => a == b && isPrefixChars as bs

/-- Model of s.includes(pat): pat occurs contiguously somewhere in s. -/
def hasSubstr (pat : List Char) : List Char → Bool
  | [] => isPrefixChars pat []
  | c :: rest => isPrefixChars pat (c :: rest) || hasSubstr pat rest

/-- Leftmost maximal run of characters satisfying p; models the regex
/[X]+/ returning its first match. -/
def firstRun (p : Char → Bool) : List Char → Option (List Char)
  | [] => none
  | c :: rest => if p c then some (c :: rest.takeWhile p) else firstRun p rest

def isDigitComma (c : Char) : Bool := c.isDigit || c == ','

def isDigitDot (c : Char) : Bool := c.isDigit || c == '.'

/-- First match of the price pattern [0-9,]+ optionally followed by a
dot and digits, as the greedy regex in extractPrice matches it. -/
def priceMatch : List Char → Option (List Char)
  | [] => none
  | c :: rest =>
    if isDigitComma c then
      some ((c :: rest.takeWhile isDigitComma) ++
        (match rest.dropWhile isDigitComma with
          | '.' :: a2 => '.' :: a2.takeWhile Char.isDigit
          | _ => []))
    else priceMatch rest

/-- Leftmost occurrence of the literal lit followed by a nonempty
capture of characters satisfying p; models /lit(X+)/ with capture. -/
def findCapture (lit : List Char) (p : Char → Bool) : List Char → Option (List Char)
  | [] => none
  | c :: rest =>
    if isPrefixChars lit (c :: rest) then
      let cap := ((c :: rest).drop lit.length).takeWhile p
      if cap.isEmpty then findCapture lit p rest else some cap
    else findCapture lit p rest

/-- Numeric value of a digit string, as parseInt reads pure digits. -/
def natOfDigits (cs : List Char) : Nat :=
  cs.foldl (fun n c => 10 * n + (c.toNat - 48)) 0

/-- Model of parseFloat on a string of digits and dots: leading digits,
an optional dot and fraction digits; everything after a second dot is
ignored; a string with no leading digit parses only as .digits; the
empty string and a bare dot give NaN (none). -/
def parseFloatDD (cs : List Char) : Option ℚ :=
  let ip := cs.takeWhile Char.isDigit
  if ip.isEmpty then
    match cs with
    | '.' :: cs2 =>
      let fp := cs2.takeWhile Char.isDigit
      if fp.isEmpty then none
      else some ((natOfDigits fp : ℚ) / (10 : ℚ) ^ fp.length)
    | _ => none
  else
    match cs.dropWhile Char.isDigit with
    | '.' :: cs2 =>
      let fp := cs2.takeWhile Char.isDigit
      some ((natOfDigits ip : ℚ) + (natOfDigits fp : ℚ) / (10 : ℚ) ^ fp.length)
    | _ => some (natOfDigits ip : ℚ)

/-- TRUSTGUARD_CONFIG from src/content-ebay.js lines 19-25; these are
all the keys the object literal defines. -/
structure TrustGuardConfig where
  API_URL : String
  CACHE_DURATION : Nat
  DEBOUNCE_DELAY : Nat
  MAX_RETRIES : Nat
  OVERLAY_Z_INDEX : Nat

def TRUSTGUARD_CONFIG : TrustGuardConfig :=
  { API_URL := "https://api.trustguard.com/v1"
    CACHE_DURATION := 300000
    DEBOUNCE_DELAY := 500
    MAX_RETRIES := 3
    OVERLAY_Z_INDEX := 999999 }

/-- Own keys of the TRUSTGUARD_CONFIG object literal, in source order. -/
def configKeys : List String :=
  ["API_URL", "CACHE_DURATION", "DEBOUNCE_DELAY", "MAX_RETRIES", "OVERLAY_Z_INDEX"]

/-- Numeric property lookup on the TRUSTGUARD_CONFIG object: the key
name maps to its value, any other name is absent (undefined). -/
def configNumLookup : String → Option Nat
  | "CACHE_DURATION" => some TRUSTGUARD_CONFIG.CACHE_DURATION
  | "DEBOUNCE_DELAY" => some TRUSTGUARD_CONFIG.DEBOUNCE_DELAY
  | "MAX_RETRIES" => some TRUSTGUARD_CONFIG.MAX_RETRIES
  | "OVERLAY_Z_INDEX" => some TRUSTGUARD_CONFIG.OVERLAY_Z_INDEX
  | _ => none

/-- The five risk levels of RISK_LEVELS, ordered by severity. -/
inductive RiskLevel where
  | SAFE
  | LOW
  | MEDIUM
  | HIGH
  | CRITICAL
deriving DecidableEq

/-- Per-level data of the RISK_LEVELS table (icons omitted). -/
structure RiskLevelInfo where
  color : String
  label : String
  score : ℚ

/-- RISK_LEVELS from src/content-ebay.js lines 27-33. -/
def RISK_LEVELS : RiskLevel → RiskLevelInfo
  | .CRITICAL => { color := "#DC143C", label := "High Risk", score := 80 }
  | .HIGH => { color := "#FF6B35", label := "Caution", score := 60 }
  | .MEDIUM => { color := "#FFB200", label := "Medium Risk", score := 40 }
  | .LOW => { color := "#059669", label := "Low Risk", score := 20 }
  | .SAFE => { color := "#10B981", label := "Verified Safe", score := 0 }

/-- Modelled from the spec: the classifier function itself is not in the
source (the file is cut off before any code that turns a score into a
level); section 4.2 of the spec defines classify over five bands whose
inclusive lower bounds are the score thresholds of the RISK_LEVELS table
that the source does define. -/
def classify (s : ℚ) : RiskLevel :=
  if (RISK_LEVELS .CRITICAL).score ≤ s then .CRITICAL
  else if (RISK_LEVELS .HIGH).score ≤ s then .HIGH
  else if (RISK_LEVELS .MEDIUM).score ≤ s then .MEDIUM
  else if (RISK_LEVELS .LOW).score ≤ s then .LOW
  else .SAFE

/-- Severity rank of a level, SAFE lowest, CRITICAL highest. -/
def severity : RiskLevel → Nat
  | .SAFE => 0
  | .LOW => 1
  | .MEDIUM => 2
  | .HIGH => 3
  | .CRITICAL => 4

/-- Content of the description iframe as the script reaches for it:
either a readable inner document body text, or inaccessible, in which
case the browser throws on the contentWindow.document read. -/
inductive DescFrame where
  | readable (bodyText : String)
  | inaccessible
deriving DecidableEq

/-- Shallow view of the document state as the extractor reads it: for
each selector the script queries, the text content of the first match
when one exists. -/
structure DocView where
  href : String
  titleEl : Option String
  priceEl : Option String
  sellerLinkHref : Option String
  sellerEl : Option String
  feedbackEl : Option String
  carouselImgs : List String
  descFrame : Option DescFrame
  condEl : Option String
  shippingEl : Option String
  breadcrumbs : List String

/-- extractItemId: first /itm/ path segment of the URL followed by
digits, captured; null when the pattern does not match. -/
def extractItemId (d : DocView) : Option String :=
  (findCapture "/itm/".data Char.isDigit d.href.data).map String.mk

/-- extractTitle: trimmed text of the title element, empty when absent. -/
def extractTitle (d : DocView) : String :=
  match d.titleEl with
  | some t => String.mk (jsTrim t.data)
  | none => ""

/-- extractPrice: trimmed text, first match of the price regex, commas
removed, then parseFloat; null when element or match is absent. -/
def extractPrice (d : DocView) : JSNum :=
  match d.priceEl with
  | none => .null
  | some t =>
    match priceMatch (jsTrim t.data) with
    | none => .null
    | some m =>
      match parseFloatDD (m.filter (fun c => c != ',')) with
      | none => .nan
      | some q => .num q

/-- extractSellerId: capture after /usr/ in the seller link href, up to
a question mark; null when link or capture is absent. -/
def extractSellerId (d : DocView) : Option String :=
  match d.sellerLinkHref with
  | none => none
  | some h => (findCapture "/usr/".data (fun c => c != '?') h.data).map String.mk

/-- extractSellerName: trimmed text of the seller element, empty when
absent. -/
def extractSellerName (d : DocView) : String :=
  match d.sellerEl with
  | some t => String.mk (jsTrim t.data)
  | none => ""

/-- extractSellerFeedback: trimmed text, first run of digits and commas,
commas removed, then parseInt; null when element or match is absent. -/
def extractSellerFeedback (d : DocView) : JSNum :=
  match d.feedbackEl with
  | none => .null
  | some t =>
    match firstRun isDigitComma (jsTrim t.data) with
    | none => .null
    | some m =>
      let ds := m.filter (fun c => c != ',')
      if ds.isEmpty then .nan else .num (natOfDigits ds : ℚ)

/-- Filter condition of the image loop: a nonempty src that does not
contain the placeholder marker. -/
def imgOk (s : String) : Bool :=
  !(s == "") && !(hasSubstr "placeholder".data s.data)

/-- The forEach push loop of extractImages, keeping the sources that
pass the filter in document order. -/
def collectImages : List String → List String
  | [] => []
  | s :: rest => if imgOk s then s :: collectImages rest else collectImages rest

/-- extractImages: filtered carousel sources, then slice(0, 5). -/
def extractImages (d : DocView) : List String :=
  (collectImages d.carouselImgs).take 5

/-- extractDescription: empty string when the iframe is absent; the
first 1000 characters of the body text when readable; a thrown
SecurityError when the inner document is not accessible, since the
source reads contentWindow.document with no guard. -/
def extractDescription (d : DocView) : Except JsError String :=
  match d.descFrame with
  | none => .ok ""
  | some (.readable t) => .ok (String.mk (t.data.take 1000))
  | some .inaccessible => .error .securityError

/-- extractCondition: trimmed text of the condition element, or the
string Unknown when absent. -/
def extractCondition (d : DocView) : String :=
  match d.condEl with
  | some t => String.mk (jsTrim t.data)
  | none => "Unknown"

/-- extractShipping: null when the element is absent; 0 when the
lowercased trimmed text contains free; otherwise parseFloat of the first
run of digits and dots, null when no such run exists. -/
def extractShipping (d : DocView) : JSNum :=
  match d.shippingEl with
  | none => .null
  | some t =>
    let txt := jsTrim t.data
    if hasSubstr "free".data (jsToLower txt) then .num 0
    else
      match firstRun isDigitDot txt with
      | none => .null
      | some m =>
        match parseFloatDD m with
        | none => .nan
        | some q => .num q

/-- Separator join of the breadcrumb texts, as Array.join does it. -/
def joinCrumbs : List String → String
  | [] => ""
  | [s] => s
  | s :: rest => s ++ " > " ++ joinCrumbs rest

/-- extractCategory: trimmed breadcrumb texts joined by the separator,
or the string Unknown when there are no breadcrumbs. -/
def extractCategory (d : DocView) : String :=
  match d.breadcrumbs with
  | [] => "Unknown"
  | bs => joinCrumbs (bs.map (fun s => String.mk (jsTrim s.data)))

/-- The listing snapshot object built by extractListingData. -/
structure Snapshot where
  url : String
  itemId : Option String
  title : String
  price : JSNum
  sellerId : Option String
  sellerName : String
  sellerFeedback : JSNum
  imageUrls : List String
  description : String
  condition : String
  shipping : JSNum
  category : String
  timestamp : Nat

/-- extractListingData: builds the snapshot from the per-field
extractors; the only extractor that can throw is extractDescription, and
a throw aborts the whole object construction, so the result is an
Except. -/
def extractListingData (d : DocView) (now : Nat) : Except JsError Snapshot :=
  match extractDescription d with
  | .error e => .error e
  | .ok desc =>
    .ok { url := d.href
          itemId := extractItemId d
          title := extractTitle d
          price := extractPrice d
          sellerId := extractSellerId d
          sellerName := extractSellerName d
          sellerFeedback := extractSellerFeedback d
          imageUrls := extractImages d
          description := desc
          condition := extractCondition d
          shipping := extractShipping d
          category := extractCategory d
          timestamp := now }

/-- Cache key built in analyzeList from the item id. -/
def cacheKey (itemId : String) : String := "listing_" ++ itemId

/-- Entry of the verdict cache: stored value and insertion timestamp. -/
structure CacheEntry (α : Type) where
  value : α
  timestamp : Nat
deriving DecidableEq

/-- Modelled from the spec: TrustGuardAPI.analyzeList breaks off in the
source mid-expression right after reading Date.now() minus the cached
timestamp, so the freshness comparison, the scoring call and the store
are missing; per sections 4.4 and 4.5 of the spec an entry is fresh
while its age is at most CACHE_DURATION and is then returned with no
client call, while a stale or missing entry makes resolve invoke the
scoring client and store the fresh verdict under the key. The returned
Bool records whether the client was invoked. -/
def resolve {α : Type} (cache : List (String × CacheEntry α)) (key : String)
    (now : Nat) (client : α) : α × List (String × CacheEntry α) × Bool :=
  match cache.lookup key with
  | some e =>
    if now - e.timestamp ≤ TRUSTGUARD_CONFIG.CACHE_DURATION then (e.value, cache, false)
    else (client, (key, ⟨client, now⟩) :: cache, true)
  | none => (client, (key, ⟨client, now⟩) :: cache, true)

/-! Example document states used by concrete theorems and witnesses. -/

/-- Document state in which every selector fails to match. -/
def emptyDoc : DocView :=
  { href := "", titleEl := none, priceEl := none, sellerLinkHref := none,
    sellerEl := none, feedbackEl := none, carouselImgs := [], descFrame := none,
    condEl := none, shippingEl := none, breadcrumbs := [] }

/-- Document whose shipping element has the given text. -/
def shipDoc (t : String) : DocView := { emptyDoc with shippingEl := some t }

/-- Document whose price element has the given text. -/
def priceDoc (t : String) : DocView := { emptyDoc with priceEl := some t }

/-- Document whose seller feedback element has the given text. -/
def fbDoc (t : String) : DocView := { emptyDoc with feedbackEl := some t }

/-- Document whose description iframe is present but whose inner document
cannot be read, as for a cross-origin frame. -/
def inaccessibleFrameDoc : DocView :=
  { emptyDoc with
      href := "https://www.ebay.com/itm/123456789"
      titleEl := some " Vintage Watch "
      priceEl := some "US $19.99"
      descFrame := some .inaccessible }

/-- Document with a placeholder image first and six real carousel images
after it. -/
def sixImagesDoc : DocView :=
  { emptyDoc with
      carouselImgs :=
        ["https://ir.ebaystatic.com/placeholder.gif",
         "https://i.ebayimg.com/images/g/1.jpg",
         "https://i.ebayimg.com/images/g/2.jpg",
         "https://i.ebayimg.com/images/g/3.jpg",
         "https://i.ebayimg.com/images/g/4.jpg",
         "https://i.ebayimg.com/images/g/5.jpg",
         "https://i.ebayimg.com/images/g/6.jpg"] }

/-- Document with a placeholder among the first five carousel images and
a real sixth image. -/
def lateImageDoc : DocView :=
  { emptyDoc with
      carouselImgs :=
        ["https://i.ebayimg.com/images/g/a.jpg",
         "https://i.ebayimg.com/images/g/b.jpg",
         "https://ir.ebaystatic.com/pictures/placeholder.gif",
         "https://i.ebayimg.com/images/g/c.jpg",
         "https://i.ebayimg.com/images/g/d.jpg",
         "https://i.ebayimg.com/images/g/e.jpg"] }

/-- Concrete verdict cache with a single entry inserted at time 1000. -/
def cacheW : List (String × CacheEntry ℚ) := [("listing_123456789", ⟨42, 1000⟩)]

/-! Helper lemmas shared by the claim theorems. -/

lemma score_eq_CRITICAL : (RISK_LEVELS RiskLevel.CRITICAL).score = 80 := rfl

lemma score_eq_HIGH : (RISK_LEVELS RiskLevel.HIGH).score = 60 := rfl

lemma score_eq_MEDIUM : (RISK_LEVELS RiskLevel.MEDIUM).score = 40 := rfl

lemma score_eq_LOW : (RISK_LEVELS RiskLevel.LOW).score = 20 := rfl

/-- The push loop of extractImages keeps exactly the sources passing the
filter condition, in order. -/
lemma collectImages_eq_filter (l : List String) : collectImages l = l.filter imgOk := by
  induction l with
  | nil => rfl
  | cons s rest ih => cases h : imgOk s <;> simp [collectImages, List.filter_cons, h, ih]

/-! Claim theorems. -/

/-- C1: over scores in the range 0 to 100, classify places a score in
exactly the band whose inclusive lower bound it reaches: CRITICAL from
80, HIGH on 60 to below 80, MEDIUM on 40 to below 60, LOW on 20 to below
40, SAFE below 20; the boundary scores 0, 20, 40, 60, 80, 100 land on
SAFE, LOW, MEDIUM, HIGH, CRITICAL, CRITICAL; and the severity of the
level is monotonically non-decreasing in the score. -/
theorem claim_C1_classifier_bands :
    (∀ s : ℚ, 0 ≤ s → s ≤ 100 →
      ((classify s = RiskLevel.CRITICAL ↔ 80 ≤ s) ∧
       (classify s = RiskLevel.HIGH ↔ 60 ≤ s ∧ s < 80) ∧
       (classify s = RiskLevel.MEDIUM ↔ 40 ≤ s ∧ s < 60) ∧
       (classify s = RiskLevel.LOW ↔ 20 ≤ s ∧ s < 40) ∧
       (classify s = RiskLevel.SAFE ↔ 0 ≤ s ∧ s < 20))) ∧
    (classify 0 = RiskLevel.SAFE ∧ classify 20 = RiskLevel.LOW ∧
     classify 40 = RiskLevel.MEDIUM ∧ classify 60 = RiskLevel.HIGH ∧
     classify 80 = RiskLevel.CRITICAL ∧ classify 100 = RiskLevel.CRITICAL) ∧
    (∀ s t : ℚ, 0 ≤ s → s ≤ t → t ≤ 100 →
      severity (classify s) ≤ severity (classify t)) := by
  refine ⟨?_, ⟨by rfl, by rfl, by rfl, by rfl, by rfl, by rfl⟩, ?_⟩
  · intro s h0 h100
    unfold classify
    simp only [score_eq_CRITICAL, score_eq_HIGH, score_eq_MEDIUM, score_eq_LOW]
    split_ifs with h1 h2 h3 h4 <;>
      refine ⟨?_, ?_, ?_, ?_, ?_⟩ <;>
      constructor <;>
      intro hx <;>
      first
      | rfl
      | exact absurd hx (by decide)
      | exact ⟨by linarith, by linarith⟩
      | linarith
  · intro s t h0 hst h100
    unfold classify
    simp only [score_eq_CRITICAL, score_eq_HIGH, score_eq_MEDIUM, score_eq_LOW]
    split_ifs <;>
      first
      | (simp only [severity]; omega)
      | (exfalso; linarith)

/-- C1 witness: the banding and monotonicity facts at concrete scores. -/
theorem claim_C1_witness :
    classify 70 = RiskLevel.HIGH ∧ severity (classify 30) ≤ severity (classify 90) :=
  ⟨((claim_C1_classifier_bands.1 70 (by decide) (by decide)).2.1).mpr
      ⟨by decide, by decide⟩,
   claim_C1_classifier_bands.2.2 30 90 (by decide) (by decide) (by decide)⟩

/-- C2 counterexample: a price element whose text is a lone comma is
unparsable, yet the price extractor returns NaN rather than the null
the claim requires for an unparsable source. -/
theorem claim_C2_counterexample :
    extractPrice (priceDoc ",") = JSNum.nan ∧ JSNum.nan ≠ JSNum.null :=
  ⟨by rfl, by decide⟩

/-- C2 amended: removing the price element from any document state makes
the extracted snapshot carry price null while leaving every other
snapshot field exactly what it is when the element is present, so no
other field extraction fails because of the absent price; a present
price element whose text contains no numeric characters likewise yields
null, while a text whose numeric match strips to nothing yields NaN. -/
theorem claim_C2_price_field_independent :
    (∀ (d : DocView) (now : Nat),
      extractListingData { d with priceEl := none } now =
        Except.map (fun s => { s with price := JSNum.null }) (extractListingData d now)) ∧
    extractPrice (priceDoc "Contact seller") = JSNum.null := by
  constructor
  · intro d now
    rcases d with ⟨href, titleEl, priceEl, sellerLinkHref, sellerEl, feedbackEl, carousel,
      descFrame, condEl, shippingEl, breadcrumbs⟩
    rcases descFrame with _ | f
    · rfl
    · rcases f with t | _ <;> rfl
  · rfl

/-- C3 counterexample: a shipping element whose text is the unparsable
string consisting of one dot makes extractShipping return NaN, not
null, so an unparsable text does not always yield null as the claim
states. -/
theorem claim_C3_counterexample :
    extractShipping (shipDoc ".") = JSNum.nan ∧ JSNum.nan ≠ JSNum.null :=
  ⟨by rfl, by decide⟩

/-- C3 amended: free text yields 0, a stated amount yields that number,
an absent element yields null, and a present element whose text has no
digit and no dot yields null, while a digit-and-dot run that parseFloat
cannot read (a bare dot) yields NaN; the outcomes 0, 4.99, null and NaN
are pairwise distinct for callers. -/
theorem claim_C3_shipping_three_way :
    extractShipping (shipDoc "Free") = JSNum.num 0 ∧
    extractShipping (shipDoc "$4.99") = JSNum.num (499 / 100) ∧
    extractShipping emptyDoc = JSNum.null ∧
    extractShipping (shipDoc "Varies") = JSNum.null ∧
    (JSNum.num 0 ≠ JSNum.null ∧ JSNum.num (499 / 100) ≠ JSNum.null ∧
     JSNum.num 0 ≠ JSNum.num (499 / 100) ∧ JSNum.nan ≠ JSNum.null ∧
     JSNum.nan ≠ JSNum.num 0) := by
  refine ⟨by rfl, by with_unfolding_all rfl, by rfl, by rfl, by decide, by decide, ?_,
    by decide, by decide⟩
  intro h
  exact absurd (JSNum.num.inj h) (by norm_num)

/-- C4: a present description iframe whose inner document cannot be read
makes extractDescription throw, and the throw propagates out of
extractListingData, which therefore does not run to completion and
produces no snapshot; this evaluates the code at the failing document
state of the code-bug report. -/
theorem claim_C4_description_throws :
    extractDescription inaccessibleFrameDoc = Except.error JsError.securityError ∧
    extractListingData inaccessibleFrameDoc 0 = Except.error JsError.securityError ∧
    (∀ s : Snapshot, extractListingData inaccessibleFrameDoc 0 ≠ Except.ok s) :=
  ⟨rfl, rfl, fun _ h => Except.noConfusion h⟩

/-- C5: the shipping extractor does not accept thousands separators, so
the text 1,234.56 with a dollar sign parses to 1, not 1234.56, while the
price extractor does accept them; and a source text whose numeric match
strips to nothing, such as a lone comma, makes the price and feedback
extractors return NaN, a garbage value, instead of null; this evaluates
the code at the failing inputs of the code-bug report. -/
theorem claim_C5_numeric_parsing_divergence :
    extractShipping (shipDoc "$1,234.56") = JSNum.num 1 ∧
    extractPrice (priceDoc "US $1,234.56") = JSNum.num (123456 / 100) ∧
    extractPrice (priceDoc ",") = JSNum.nan ∧
    extractSellerFeedback (fbDoc ",,") = JSNum.nan ∧
    extractSellerFeedback (fbDoc " 1,234 ") = JSNum.num 1234 ∧
    JSNum.num 1 ≠ JSNum.num (123456 / 100) ∧
    JSNum.nan ≠ JSNum.null := by
  refine ⟨by rfl, by with_unfolding_all rfl, by rfl, by rfl, by rfl, ?_, by decide⟩
  intro h
  exact absurd (JSNum.num.inj h) (by norm_num)

/-- C6: a cache lookup that finds an entry whose age is at most
CACHE_DURATION returns the stored verdict without invoking the scoring
client and leaves the cache unchanged, while an entry whose age exceeds
CACHE_DURATION is treated as a miss: the client is invoked and the fresh
verdict is stored under the key; freshness is decided at read time by
comparing the age, nothing deletes entries in the background. -/
theorem claim_C6_cache_ttl {α : Type} (cache : List (String × CacheEntry α))
    (key : String) (now : Nat) (e : CacheEntry α) (client : α)
    (hl : cache.lookup key = some e) :
    (now - e.timestamp ≤ TRUSTGUARD_CONFIG.CACHE_DURATION →
      resolve cache key now client = (e.value, cache, false)) ∧
    (TRUSTGUARD_CONFIG.CACHE_DURATION < now - e.timestamp →
      resolve cache key now client = (client, (key, ⟨client, now⟩) :: cache, true)) := by
  constructor
  · intro h
    simp only [resolve, hl]
    rw [if_pos h]
  · intro h
    simp only [resolve, hl]
    rw [if_neg (not_le.mpr h)]

/-- C6 witness: on a concrete cache, a lookup at exactly the freshness
bound returns the stored verdict with no client call, and a lookup one
millisecond past it invokes the client and stores the new verdict. -/
theorem claim_C6_witness :
    resolve cacheW "listing_123456789" 301000 (7 : ℚ) = (42, cacheW, false) ∧
    resolve cacheW "listing_123456789" 301001 (7 : ℚ) =
      ((7 : ℚ), ("listing_123456789", ⟨7, 301001⟩) :: cacheW, true) :=
  ⟨(claim_C6_cache_ttl cacheW "listing_123456789" 301000 ⟨42, 1000⟩ 7 (by rfl)).1
      (by decide),
   (claim_C6_cache_ttl cacheW "listing_123456789" 301001 ⟨42, 1000⟩ 7 (by rfl)).2
      (by decide)⟩

/-- C7: for every document state the extracted image list has at most
five entries, is a sublist of the carousel sources in document order,
and contains no URL with the placeholder marker; every retained entry is
one of the carousel image sources. -/
theorem claim_C7_images_bounded (d : DocView) :
    (extractImages d).length ≤ 5 ∧
    List.Sublist (extractImages d) d.carouselImgs ∧
    (∀ u ∈ extractImages d,
      hasSubstr "placeholder".data u.data = false ∧ u ∈ d.carouselImgs) := by
  refine ⟨List.length_take_le 5 _, ?_, ?_⟩
  · exact (List.take_sublist 5 _).trans
      (by rw [collectImages_eq_filter]; exact List.filter_sublist _)
  · intro u hu
    have hu1 : u ∈ collectImages d.carouselImgs := List.mem_of_mem_take hu
    rw [collectImages_eq_filter] at hu1
    have hm := List.mem_filter.mp hu1
    refine ⟨?_, hm.1⟩
    have h2 := hm.2
    unfold imgOk at h2
    rw [Bool.and_eq_true] at h2
    exact (Bool.not_eq_true' _).mp h2.2

/-- C7 witness: the bound, the order and the placeholder freedom at a
concrete document with seven carousel images, one of them a
placeholder. -/
theorem claim_C7_witness :
    (extractImages sixImagesDoc).length ≤ 5 ∧
    List.Sublist (extractImages sixImagesDoc) sixImagesDoc.carouselImgs ∧
    (hasSubstr "placeholder".data "https://i.ebayimg.com/images/g/1.jpg".data = false ∧
      "https://i.ebayimg.com/images/g/1.jpg" ∈ sixImagesDoc.carouselImgs) :=
  ⟨(claim_C7_images_bounded sixImagesDoc).1,
   (claim_C7_images_bounded sixImagesDoc).2.1,
   (claim_C7_images_bounded sixImagesDoc).2.2 "https://i.ebayimg.com/images/g/1.jpg"
      (by decide)⟩

/-- C8 counterexample: the configuration object defines no option named
requestTimeoutMs, backoffBaseMs or maxImages, and none of its defined
keys holds the value 250, so the claimed reference defaults for those
options do not exist in the code. -/
theorem claim_C8_counterexample :
    configNumLookup "requestTimeoutMs" = none ∧
    configNumLookup "backoffBaseMs" = none ∧
    configNumLookup "maxImages" = none ∧
    configKeys.all (fun k => !(configNumLookup k == some 250)) = true :=
  ⟨rfl, rfl, rfl, by decide⟩

/-- C8 amended: the configuration object defines exactly the five keys
of the source literal, with CACHE_DURATION 300000, DEBOUNCE_DELAY 500,
MAX_RETRIES 3, OVERLAY_Z_INDEX 999999 and the API URL; there is no
request-timeout, backoff or image-count option, the image maximum five
being hardcoded in the extractor. -/
theorem claim_C8_config_defaults :
    TRUSTGUARD_CONFIG.CACHE_DURATION = 300000 ∧
    TRUSTGUARD_CONFIG.DEBOUNCE_DELAY = 500 ∧
    TRUSTGUARD_CONFIG.MAX_RETRIES = 3 ∧
    TRUSTGUARD_CONFIG.OVERLAY_Z_INDEX = 999999 ∧
    TRUSTGUARD_CONFIG.API_URL = "https://api.trustguard.com/v1" ∧
    configKeys.length = 5 ∧
    (∀ k ∈ configKeys, k ≠ "requestTimeoutMs" ∧ k ≠ "backoffBaseMs" ∧ k ≠ "maxImages") := by
  refine ⟨rfl, rfl, rfl, rfl, rfl, rfl, ?_⟩
  intro k hk
  fin_cases hk <;> exact ⟨by decide, by decide, by decide⟩

/-- C8 amended witness: the per-key exclusions instantiated at the first
configuration key. -/
theorem claim_C8_config_defaults_witness :
    "API_URL" ∈ configKeys ∧
    ("API_URL" ≠ "requestTimeoutMs" ∧ "API_URL" ≠ "backoffBaseMs" ∧
     "API_URL" ≠ "maxImages") :=
  ⟨by decide, claim_C8_config_defaults.2.2.2.2.2.2 "API_URL" (by decide)⟩

/-- C9: whenever the lowercased trimmed shipping text contains the
substring free, extractShipping returns 0, even when the text also
carries a numeric amount; the conditional-offer text returns 0 and not
50. -/
theorem claim_C9_free_priority :
    (∀ t : String, hasSubstr "free".data (jsToLower (jsTrim t.data)) = true →
      extractShipping (shipDoc t) = JSNum.num 0) ∧
    extractShipping (shipDoc "Free shipping on orders over $50") = JSNum.num 0 ∧
    JSNum.num 0 ≠ JSNum.num 50 := by
  refine ⟨?_, by rfl, ?_⟩
  · intro t h
    simp only [extractShipping, shipDoc, emptyDoc]
    rw [if_pos h]
  · intro h
    exact absurd (JSNum.num.inj h) (by norm_num)

/-- C9 witness: the free-over-number priority applied at a concrete
mixed-case text that also contains an amount. -/
theorem claim_C9_witness :
    extractShipping (shipDoc "FREE 2-day delivery over $50") = JSNum.num 0 :=
  claim_C9_free_priority.1 "FREE 2-day delivery over $50" (by rfl)

/-- C10: the image extractor filters before it truncates: the result is
the first five carousel sources that pass the filter, so on a document
with a placeholder among the first five images and a real sixth image,
the sixth image still enters the snapshot. -/
theorem claim_C10_filter_before_truncate :
    (∀ d : DocView, extractImages d = (d.carouselImgs.filter imgOk).take 5) ∧
    extractImages lateImageDoc =
      ["https://i.ebayimg.com/images/g/a.jpg",
       "https://i.ebayimg.com/images/g/b.jpg",
       "https://i.ebayimg.com/images/g/c.jpg",
       "https://i.ebayimg.com/images/g/d.jpg",
       "https://i.ebayimg.com/images/g/e.jpg"] := by
  constructor
  · intro d
    unfold extractImages
    rw [collectImages_eq_filter]
  · rfl
